import Mathlib

/-!
Verification development for the dankerchat backend.

The definitions below are a shallow embedding of the Python source under
`backend/src`: SQLAlchemy models become Lean structures, database tables
become lists carried in an explicit `DB` state, `query.filter_by(...).first()`
becomes `List.find?`, and service methods that raise become functions into
`Except String`.  Timestamps (`datetime.utcnow()`) are modelled as integers
supplied explicitly; generated UUIDs are modelled as explicitly supplied
strings.  External libraries (bcrypt, JWT encoding) are modelled as function
parameters or elided at the boundary where the source only passes their
results through.
-/

/-- Embeds `MembershipRole` from `models/channel_membership.py`. -/
inductive MembershipRole where
  | member
  | moderator
  | admin
deriving DecidableEq, Repr

/-- Embeds the `ChannelMembership` model columns used by the services
(`models/channel_membership.py`). -/
structure ChannelMembership where
  channel_id : String
  user_id : String
  joined_at : Int
  role : MembershipRole
  is_muted : Bool
deriving DecidableEq, Repr

/-- Embeds `ChannelMembership.is_admin`. -/
def ChannelMembership.is_admin (m : ChannelMembership) : Bool :=
  m.role == MembershipRole.admin

/-- Embeds `ChannelMembership.is_moderator`. -/
def ChannelMembership.is_moderator (m : ChannelMembership) : Bool :=
  m.role == MembershipRole.moderator

/-- Embeds `ChannelMembership.is_member`. -/
def ChannelMembership.is_member (m : ChannelMembership) : Bool :=
  m.role == MembershipRole.member

/-- Embeds `ChannelMembership.has_moderation_privileges`
(`role in [ADMIN, MODERATOR]`). -/
def ChannelMembership.has_moderation_privileges (m : ChannelMembership) : Bool :=
  m.role == MembershipRole.admin || m.role == MembershipRole.moderator

/-- Embeds `ChannelMembership.can_send_messages` (`not self.is_muted`). -/
def ChannelMembership.can_send_messages (m : ChannelMembership) : Bool :=
  !m.is_muted

/-- Embeds `ChannelMembership.can_manage_members` (`self.is_admin()`). -/
def ChannelMembership.can_manage_members (m : ChannelMembership) : Bool :=
  m.is_admin

/-- Embeds `ChannelMembership.can_moderate_messages`. -/
def ChannelMembership.can_moderate_messages (m : ChannelMembership) : Bool :=
  m.has_moderation_privileges

/-- Embeds `ChannelMembership.can_be_managed_by(manager_membership)`:
admins manage everyone except other admins (self excepted), moderators
manage regular members only. -/
def ChannelMembership.can_be_managed_by
    (self_m manager_membership : ChannelMembership) : Bool :=
  if manager_membership.is_admin then
    !self_m.is_admin || manager_membership.user_id == self_m.user_id
  else if manager_membership.is_moderator then
    self_m.is_member
  else
    false

/-- Embeds `InterfaceType` from `models/session.py`. -/
inductive InterfaceType where
  | web
  | cli
  | api
deriving DecidableEq, Repr

/-- Embeds the `Session` model columns (`models/session.py`). -/
structure Session where
  id : String
  user_id : String
  token_jti : String
  interface_type : InterfaceType
  created_at : Int
  last_active : Int
  expires_at : Int
  is_revoked : Bool
deriving DecidableEq, Repr

/-- Embeds `Session.is_expired` (`datetime.utcnow() > self.expires_at`);
the current clock reading is passed explicitly. -/
def Session.is_expired (s : Session) (now : Int) : Bool :=
  now > s.expires_at

/-- Embeds `Session.is_active` (`not self.is_revoked and not self.is_expired()`). -/
def Session.is_active (s : Session) (now : Int) : Bool :=
  !s.is_revoked && !s.is_expired now

/-- Embeds `Session.update_activity` (`self.last_active = datetime.utcnow()`). -/
def Session.update_activity (s : Session) (now : Int) : Session :=
  { s with last_active := now }

/-- Embeds `Session.revoke`. -/
def Session.revoke (s : Session) : Session :=
  { s with is_revoked := true }

/-- Embeds `Session.find_by_token_jti` (`query.filter_by(token_jti=...).first()`). -/
def Session.find_by_token_jti (sessions : List Session) (token_jti : String) :
    Option Session :=
  sessions.find? (fun s => s.token_jti == token_jti)

/-- Embeds `MessageType` from `models/message.py`. -/
inductive MessageType where
  | text
  | system
  | join
  | leave
deriving DecidableEq, Repr

/-- Embeds the `Message` model columns (`models/message.py`).  `content` is
nullable in the schema; `channel_id` and `direct_conversation_id` are each
nullable. -/
structure Message where
  id : String
  content : Option String
  sender_id : String
  channel_id : Option String
  direct_conversation_id : Option String
  message_type : MessageType
  created_at : Int
  edited_at : Option Int
  is_deleted : Bool
deriving DecidableEq, Repr

/-- Embeds Python `str.isspace()` on a single character: true exactly for
the Unicode whitespace code points that `str.strip()` removes — the control
range 0x09-0x0D, the separator controls 0x1C-0x1F, the space 0x20, NEL 0x85,
no-break space 0xA0, Ogham space mark 0x1680, the en-quad through hair-space
range 0x2000-0x200A, the line and paragraph separators 0x2028-0x2029, narrow
no-break space 0x202F, medium mathematical space 0x205F, and ideographic
space 0x3000. -/
def pyIsSpace (c : Char) : Bool :=
  (9 ≤ c.toNat && c.toNat ≤ 13) || (28 ≤ c.toNat && c.toNat ≤ 32) ||
  c.toNat == 0x85 || c.toNat == 0xA0 || c.toNat == 0x1680 ||
  (0x2000 ≤ c.toNat && c.toNat ≤ 0x200A) || c.toNat == 0x2028 ||
  c.toNat == 0x2029 || c.toNat == 0x202F || c.toNat == 0x205F ||
  c.toNat == 0x3000

/-- Embeds Python `str.strip()` on the character list of a string: drop
leading and trailing Unicode whitespace. -/
def pyStrip (l : List Char) : List Char :=
  ((l.dropWhile pyIsSpace).reverse.dropWhile pyIsSpace).reverse

/-- Embeds `Message.validate_content`: for TEXT messages,
`content and isinstance(content, str) and len(content.strip()) > 0 and
len(content) <= 5000`; other (system) types are always accepted. -/
def Message.validate_content (content : String)
    (message_type : MessageType := MessageType.text) : Bool :=
  match message_type with
  | MessageType.text =>
      !(content == "") && decide ((pyStrip content.data).length > 0)
        && decide (content.length ≤ 5000)
  | _ => true

/-- The fields of `Message.to_dict` that project stored message state
(`models/message.py`); the read-time redaction of deleted content happens
here. -/
structure MessageDict where
  id : String
  content : Option String
  created_at : Int
  edited_at : Option Int
  message_type : MessageType
  is_deleted : Bool
deriving DecidableEq, Repr

/-- Embeds the projection part of `Message.to_dict`:
`content` is `self.content if not self.is_deleted else '[deleted]'`. -/
def Message.to_dict (m : Message) : MessageDict :=
  { id := m.id
    content := if !m.is_deleted then m.content else some "[deleted]"
    created_at := m.created_at
    edited_at := m.edited_at
    message_type := m.message_type
    is_deleted := m.is_deleted }

/-- Embeds `Message.is_channel_message`. -/
def Message.is_channel_message (m : Message) : Bool :=
  m.channel_id.isSome

/-- Embeds `Message.can_be_deleted_by`: already-deleted messages cannot be
deleted again; the sender can delete their own messages; otherwise false. -/
def Message.can_be_deleted_by (m : Message) (user_id : String) : Bool :=
  if m.is_deleted then false
  else if m.sender_id == user_id then true
  else false

/-- Embeds `Message.soft_delete(deleter_user_id)`: returns the Python
boolean result together with the (possibly updated) row. -/
def Message.soft_delete (m : Message) (deleter_user_id : String) :
    Bool × Message :=
  if !(m.can_be_deleted_by deleter_user_id) then
    (false, m)
  else
    (true, { m with is_deleted := true })

/-- Embeds the `Channel` model columns used by the services
(`models/channel.py`). -/
structure Channel where
  id : String
  name : String
  is_private : Bool
  is_archived : Bool
  max_members : Nat
deriving DecidableEq, Repr

/-- Embeds the `User` model columns used by the services (`models/user.py`). -/
structure User where
  id : String
  username : String
  email : Option String
  password_hash : String
  is_active : Bool
  last_seen : Option Int
deriving DecidableEq, Repr

/-- Embeds the `DirectConversation` model columns
(`models/direct_conversation.py`). -/
structure DirectConversation where
  id : String
  participant1_id : String
  participant2_id : String
  created_at : Int
  last_message_at : Option Int
deriving DecidableEq, Repr

/-- Embeds `DirectConversation.__init__`: participants are always stored in
consistent order, smaller id first.  The generated UUID primary key and the
clock reading are passed explicitly. -/
def DirectConversation.init (id : String)
    (participant1_id participant2_id : String) (now : Int) : DirectConversation :=
  if participant1_id < participant2_id then
    { id := id
      participant1_id := participant1_id
      participant2_id := participant2_id
      created_at := now
      last_message_at := none }
  else
    { id := id
      participant1_id := participant2_id
      participant2_id := participant1_id
      created_at := now
      last_message_at := none }

/-- Embeds `DirectConversation.find_or_create(user1_id, user2_id)` over an
explicit conversation table: ids are swapped into consistent order for the
lookup, and a missing conversation is constructed and added.  Returns the
resolved conversation together with the updated table. -/
def DirectConversation.find_or_create (convs : List DirectConversation)
    (user1_id user2_id : String) (new_id : String) (now : Int) :
    DirectConversation × List DirectConversation :=
  let ids := if user1_id > user2_id then (user2_id, user1_id) else (user1_id, user2_id)
  match convs.find? (fun c =>
      c.participant1_id == ids.1 && c.participant2_id == ids.2) with
  | some conversation => (conversation, convs)
  | none =>
      let conversation := DirectConversation.init new_id ids.1 ids.2 now
      (conversation, convs ++ [conversation])

/-- The database state threaded through the service functions: one list per
table touched by the claims. -/
structure DB where
  users : List User
  channels : List Channel
  memberships : List ChannelMembership
  messages : List Message
  sessions : List Session
  conversations : List DirectConversation
deriving Repr

/-- Embeds `Channel.query.get(channel_id)`: primary-key lookup. -/
def Channel.get (channels : List Channel) (channel_id : String) : Option Channel :=
  channels.find? (fun c => c.id == channel_id)

/-- Embeds `ChannelMembership.query.filter_by(channel_id=..., user_id=...).first()`. -/
def ChannelMembership.find (memberships : List ChannelMembership)
    (channel_id user_id : String) : Option ChannelMembership :=
  memberships.find? (fun m => m.channel_id == channel_id && m.user_id == user_id)

/-- Embeds `MessagingService.send_channel_message(sender, channel_id, content,
message_type)` from `services/messaging.py`: looks up the channel, rejects
archived channels, requires a membership row, rejects muted members, validates
content, then persists a new message row.  The generated message id and the
clock reading are passed explicitly. -/
def MessagingService.send_channel_message (db : DB) (sender : User)
    (channel_id : String) (content : String)
    (message_type : MessageType := MessageType.text)
    (new_id : String := "") (now : Int := 0) :
    Except String Message × DB :=
  match Channel.get db.channels channel_id with
  | none => (Except.error "Channel not found", db)
  | some channel =>
    if channel.is_archived then
      (Except.error "Cannot send messages to archived channel", db)
    else
      match ChannelMembership.find db.memberships channel_id sender.id with
      | none => (Except.error "User is not a member of this channel", db)
      | some membership =>
        if !membership.can_send_messages then
          (Except.error "User is muted in this channel", db)
        else if !(Message.validate_content content message_type) then
          (Except.error "Invalid message content", db)
        else
          let message : Message :=
            { id := new_id
              content := some content
              sender_id := sender.id
              channel_id := some channel_id
              direct_conversation_id := none
              message_type := message_type
              created_at := now
              edited_at := none
              is_deleted := false }
          (Except.ok message, { db with messages := db.messages ++ [message] })

/-- Embeds SQL `ORDER BY created_at DESC` on a message list. -/
def sortByCreatedDesc (l : List Message) : List Message :=
  l.mergeSort (fun a b => b.created_at ≤ a.created_at)

/-- Embeds `MessagingService.get_channel_messages(user, channel_id, limit,
before_timestamp)` from `services/messaging.py`: requires membership, filters
to non-deleted messages of the channel, optionally keeps only those with
`created_at < before_timestamp`, takes the most recent `limit`, and returns
them oldest-first. -/
def MessagingService.get_channel_messages (db : DB) (user : User)
    (channel_id : String) (limit : Nat := 50)
    (before_timestamp : Option Int := none) :
    Except String (List Message) × DB :=
  match ChannelMembership.find db.memberships channel_id user.id with
  | none => (Except.error "User is not a member of this channel", db)
  | some _membership =>
    let q := db.messages.filter (fun m =>
      m.channel_id == some channel_id && m.is_deleted == false)
    let q :=
      match before_timestamp with
      | some t => q.filter (fun m => m.created_at < t)
      | none => q
    let messages := (sortByCreatedDesc q).take limit
    (Except.ok messages.reverse, db)

/-- Embeds `Channel.get_recent_messages(limit=20)` from `models/channel.py`:
non-deleted messages of the channel, most recent first, capped at `limit`. -/
def Channel.get_recent_messages (channel : Channel) (messages : List Message)
    (limit : Nat := 20) : List Message :=
  (sortByCreatedDesc (messages.filter (fun m =>
    m.channel_id == some channel.id && m.is_deleted == false))).take limit

/-- Embeds the user-resolution step of `AuthService.authenticate_user`:
`filter_by(username=...).first() or filter_by(email=...).first()`. -/
def AuthService.resolve_user (users : List User) (username : String) :
    Option User :=
  match users.find? (fun u => u.username == username) with
  | some u => some u
  | none => users.find? (fun u => u.email == some username)

/-- Embeds `AuthService.authenticate_user(username, password)` from
`services/auth.py`.  The bcrypt check `verify_password(password,
user.password_hash)` is an external library call, passed in as the function
parameter `verify`.  On success the source calls `user.update_last_login()`;
`User` defines no such method (its timestamp updater is `update_last_seen`),
so the success branch is modelled as updating `last_seen`, the nearest
defined operation; the claims settled here only depend on the failure
branches, which return before that call.  Returns the authenticated user (if
any) and the updated user table. -/
def AuthService.authenticate_user (verify : String → String → Bool) (db : DB)
    (username password : String) (now : Int) : Option User × DB :=
  match AuthService.resolve_user db.users username with
  | none => (none, db)
  | some user =>
    if !user.is_active then (none, db)
    else if !(verify password user.password_hash) then (none, db)
    else
      let updated := { user with last_seen := some now }
      (some updated,
        { db with users := db.users.map (fun u => if u.id == user.id then updated else u) })

/-- Embeds `AuthService.create_session(user, interface_type, expires_in_hours)`
from `services/auth.py` together with `Session.__init__`: mints a session row
expiring `expires_in_hours` hours from now and appends it to the session
table.  The generated ids and the clock reading are passed explicitly; the
JWT encoding of the returned token is external and elided. -/
def AuthService.create_session (db : DB) (user : User)
    (interface_type : InterfaceType) (expires_in_hours : Int := 24)
    (new_session_id new_token_jti : String := "") (now : Int := 0) :
    (Session × String) × DB :=
  let session : Session :=
    { id := new_session_id
      user_id := user.id
      token_jti := new_token_jti
      interface_type := interface_type
      created_at := now
      last_active := now
      expires_at := now + expires_in_hours * 3600
      is_revoked := false }
  ((session, new_token_jti), { db with sessions := db.sessions ++ [session] })

/-- The record returned by a successful `AuthService.login`. -/
structure LoginResult where
  user : User
  session : Session
  token : String
deriving Repr

/-- Embeds `AuthService.login(username, password, interface_type,
expires_in_hours)` from `services/auth.py`: authenticate, then create a
session; `None` when authentication fails. -/
def AuthService.login (verify : String → String → Bool) (db : DB)
    (username password : String) (interface_type : InterfaceType)
    (expires_in_hours : Int := 24)
    (new_session_id new_token_jti : String := "") (now : Int := 0) :
    Option LoginResult × DB :=
  match AuthService.authenticate_user verify db username password now with
  | (none, db1) => (none, db1)
  | (some user, db1) =>
    let ((session, token), db2) :=
      AuthService.create_session db1 user interface_type expires_in_hours
        new_session_id new_token_jti now
    (some { user := user, session := session, token := token }, db2)

/-- Embeds `AuthService.validate_token(token)` from `services/auth.py`, after
the external JWT decode has yielded the token identifier `jti`: the session is
looked up by `token_jti`; a missing or inactive (revoked or expired) session
yields `None`; otherwise `update_activity` refreshes `last_active` and the
refreshed session is returned. -/
def AuthService.validate_token (db : DB) (jti : String) (now : Int) :
    Option Session × DB :=
  match Session.find_by_token_jti db.sessions jti with
  | none => (none, db)
  | some session =>
    if !(session.is_active now) then (none, db)
    else
      let updated := session.update_activity now
      (some updated,
        { db with sessions := db.sessions.map (fun s =>
            if s.token_jti == jti then updated else s) })

/-- Embeds `ChannelService.leave_channel(user, channel_id)` from
`services/channels.py`: requires the channel and the membership to exist;
when the leaver is an admin, the channel's only admin, and the channel has
more than one member, the leave is rejected; otherwise the membership row is
deleted. -/
def ChannelService.leave_channel (db : DB) (user : User) (channel_id : String) :
    Except String Unit × DB :=
  match Channel.get db.channels channel_id with
  | none => (Except.error "Channel not found", db)
  | some _channel =>
    match ChannelMembership.find db.memberships channel_id user.id with
    | none => (Except.error "User is not a member of this channel", db)
    | some membership =>
      let admin_count := (db.memberships.filter (fun m =>
        m.channel_id == channel_id && m.role == MembershipRole.admin)).length
      let member_count := (db.memberships.filter (fun m =>
        m.channel_id == channel_id)).length
      if membership.is_admin && admin_count == 1 && member_count > 1 then
        (Except.error "Cannot leave: you are the only admin. Transfer ownership first.", db)
      else
        (Except.ok (), { db with memberships := db.memberships.erase membership })

/-- Embeds `ChannelService.kick_user(moderator, channel_id, user_id)` from
`services/channels.py`: requires the channel; the kicker must have a
membership with `can_manage_members` (admin); the target must have a
membership and be manageable by the kicker per `can_be_managed_by`; then the
target membership row is deleted. -/
def ChannelService.kick_user (db : DB) (moderator : User)
    (channel_id user_id : String) : Except String Unit × DB :=
  match Channel.get db.channels channel_id with
  | none => (Except.error "Channel not found", db)
  | some _channel =>
    match ChannelMembership.find db.memberships channel_id moderator.id with
    | none => (Except.error "Insufficient permissions to kick users", db)
    | some mod_membership =>
      if !mod_membership.can_manage_members then
        (Except.error "Insufficient permissions to kick users", db)
      else
        match ChannelMembership.find db.memberships channel_id user_id with
        | none => (Except.error "User is not a member of this channel", db)
        | some target_membership =>
          if !(target_membership.can_be_managed_by mod_membership) then
            (Except.error "Cannot kick this user: insufficient permissions", db)
          else
            (Except.ok (),
              { db with memberships := db.memberships.erase target_membership })

/-- The staged filter chain of `get_channel_messages`: the non-deleted
messages of channel `cid`, further restricted to `created_at <
before_timestamp` when a timestamp is supplied. -/
def channelQualifying (messages : List Message) (cid : String)
    (before_timestamp : Option Int) : List Message :=
  match before_timestamp with
  | some t => (messages.filter (fun m =>
      m.channel_id == some cid && m.is_deleted == false)).filter
      (fun m => m.created_at < t)
  | none => messages.filter (fun m =>
      m.channel_id == some cid && m.is_deleted == false)

/-! Concrete instances of the model used to evaluate the theorems below on
explicit inputs. -/

/-- A public, non-archived channel. -/
def chanC1 : Channel :=
  { id := "c1", name := "general", is_private := false, is_archived := false,
    max_members := 50 }

/-- An active user with no channel memberships. -/
def userC1 : User :=
  { id := "u1", username := "alice", email := none, password_hash := "h",
    is_active := true, last_seen := none }

/-- A database holding only the public channel `chanC1` and the non-member
user `userC1`. -/
def dbC1 : DB :=
  { users := [userC1], channels := [chanC1], memberships := [], messages := [],
    sessions := [], conversations := [] }

/-- An unrevoked session expiring at time 100. -/
def sessC3 : Session :=
  { id := "s1", user_id := "u1", token_jti := "j1",
    interface_type := InterfaceType.web, created_at := 0, last_active := 0,
    expires_at := 100, is_revoked := false }

/-- A database holding only the session `sessC3`. -/
def dbC3 : DB :=
  { users := [], channels := [], memberships := [], messages := [],
    sessions := [sessC3], conversations := [] }

/-- A moderator membership in channel c4. -/
def actorC4 : ChannelMembership :=
  { channel_id := "c4", user_id := "mod1", joined_at := 0,
    role := MembershipRole.moderator, is_muted := false }

/-- An admin membership in channel c4. -/
def targetC4 : ChannelMembership :=
  { channel_id := "c4", user_id := "adm1", joined_at := 0,
    role := MembershipRole.admin, is_muted := false }

/-- The moderator user behind `actorC4`. -/
def modUserC4 : User :=
  { id := "mod1", username := "mallory", email := none, password_hash := "h",
    is_active := true, last_seen := none }

/-- A database with channel c4 and the two memberships `actorC4`, `targetC4`. -/
def dbC4 : DB :=
  { users := [modUserC4],
    channels := [{ id := "c4", name := "chan4", is_private := false,
                   is_archived := false, max_members := 50 }],
    memberships := [actorC4, targetC4], messages := [],
    sessions := [], conversations := [] }

/-- A plain member of channel c5. -/
def userC5 : User :=
  { id := "u5", username := "carol", email := none, password_hash := "h",
    is_active := true, last_seen := none }

/-- The membership row of `userC5` in channel c5. -/
def memC5 : ChannelMembership :=
  { channel_id := "c5", user_id := "u5", joined_at := 0,
    role := MembershipRole.member, is_muted := false }

/-- A non-deleted message in channel c5 created at time 5. -/
def msgC5 : Message :=
  { id := "m5", content := some "hello", sender_id := "u5",
    channel_id := some "c5", direct_conversation_id := none,
    message_type := MessageType.text, created_at := 5, edited_at := none,
    is_deleted := false }

/-- A database with channel c5, member `userC5`, and the message `msgC5`. -/
def dbC5 : DB :=
  { users := [userC5],
    channels := [{ id := "c5", name := "chan5", is_private := false,
                   is_archived := false, max_members := 50 }],
    memberships := [memC5], messages := [msgC5],
    sessions := [], conversations := [] }

/-- A non-deleted text message by sender u1. -/
def msgC6 : Message :=
  { id := "m6", content := some "hi there", sender_id := "u1",
    channel_id := some "c1", direct_conversation_id := none,
    message_type := MessageType.text, created_at := 1, edited_at := none,
    is_deleted := false }

/-- A deactivated user account. -/
def userC9 : User :=
  { id := "u9", username := "dave", email := some "dave@example.com",
    password_hash := "h9", is_active := false, last_seen := none }

/-- A database holding only the inactive user `userC9` and no sessions. -/
def dbC9 : DB :=
  { users := [userC9], channels := [], memberships := [], messages := [],
    sessions := [], conversations := [] }

/-- The sole admin of channel c10. -/
def adminUserC10 : User :=
  { id := "ua", username := "erin", email := none, password_hash := "h",
    is_active := true, last_seen := none }

/-- The admin membership of `adminUserC10` in channel c10. -/
def adminMemC10 : ChannelMembership :=
  { channel_id := "c10", user_id := "ua", joined_at := 0,
    role := MembershipRole.admin, is_muted := false }

/-- A second, plain-member membership in channel c10. -/
def memberMemC10 : ChannelMembership :=
  { channel_id := "c10", user_id := "ub", joined_at := 0,
    role := MembershipRole.member, is_muted := false }

/-- A database with channel c10 whose two members include exactly one admin. -/
def dbC10 : DB :=
  { users := [adminUserC10],
    channels := [{ id := "c10", name := "chan10", is_private := false,
                   is_archived := false, max_members := 50 }],
    memberships := [adminMemC10, memberMemC10], messages := [],
    sessions := [], conversations := [] }

/-! Theorems. -/

/-- Claim C2, counterexample: the session `sessC3` is unrevoked with
`expires_at = 100`, yet at the boundary instant `now = expires_at = 100` the
code reports it active, refuting the claim that an unrevoked session is not
active at `now = expires_at` (the source `is_expired` uses a strict
greater-than, so the boundary instant is not expired). -/
theorem session_active_at_boundary_counterexample :
    sessC3.is_revoked = false ∧ sessC3.expires_at = 100 ∧
    sessC3.is_active 100 = true := by
  decide

/-- Claim C2, amended: for every session and time `now`, the session is
active if and only if it is not revoked and `now ≤ expires_at`; in
particular at the boundary instant `now = expires_at` an unrevoked session
is still active. -/
theorem session_is_active_iff (s : Session) (now : Int) :
    s.is_active now = true ↔ (s.is_revoked = false ∧ now ≤ s.expires_at) := by
  simp [Session.is_active, Session.is_expired, not_lt]

/-- Claim C6: a successful soft delete only sets the `is_deleted` flag (the
row it returns agrees with the original on every other field: content,
sender, targets, timestamps, type); a failed soft delete leaves the row
untouched; and the read-time projection `to_dict` presents the content of a
deleted message as the redaction marker while the content of a live message
passes through unchanged — the stored `content` field itself is never
mutated by either operation. -/
theorem soft_delete_only_sets_flag (m : Message) (uid : String) :
    ((m.soft_delete uid).1 = true →
      (m.soft_delete uid).2 = { m with is_deleted := true }) ∧
    ((m.soft_delete uid).1 = false → (m.soft_delete uid).2 = m) ∧
    (m.is_deleted = true → (Message.to_dict m).content = some "[deleted]") ∧
    (m.is_deleted = false → (Message.to_dict m).content = m.content) := by
  unfold Message.soft_delete Message.to_dict
  refine ⟨?_, ?_, ?_, ?_⟩
  · split <;> intro h
    · simp at h
    · simp
  · split <;> intro h
    · simp
    · simp at h
  · intro h
    simp [h]
  · intro h
    simp [h]

/-- Claim C6, witness: evaluating the theorem on the concrete message
`msgC6` and its deleter u1. -/
theorem soft_delete_only_sets_flag_witness :
    (msgC6.soft_delete "u1").2 = { msgC6 with is_deleted := true } ∧
    (Message.to_dict { msgC6 with is_deleted := true }).content =
      some "[deleted]" := by
  refine ⟨(soft_delete_only_sets_flag msgC6 "u1").1 (by decide), ?_⟩
  exact (soft_delete_only_sets_flag { msgC6 with is_deleted := true }
    "u1").2.2.1 (by decide)

/-- Helper: dropping a satisfying prefix does not change whether every
element satisfies the predicate. -/
theorem forall_mem_dropWhile_iff {α : Type} (p : α → Bool) (l : List α) :
    (∀ c ∈ l.dropWhile p, p c = true) ↔ (∀ c ∈ l, p c = true) := by
  constructor
  · intro h c hc
    rw [← List.takeWhile_append_dropWhile (p := p) (l := l)] at hc
    rcases List.mem_append.mp hc with h1 | h2
    · exact List.mem_takeWhile_imp h1
    · exact h c h2
  · intro h c hc
    exact h c (List.Sublist.mem hc (List.dropWhile_sublist _))

/-- Helper: the Python-style strip of a character list is empty exactly when
every character of the list is Python whitespace. -/
theorem pyStrip_eq_nil_iff (l : List Char) :
    pyStrip l = [] ↔ ∀ c ∈ l, pyIsSpace c = true := by
  unfold pyStrip
  rw [List.reverse_eq_nil_iff, List.dropWhile_eq_nil_iff]
  constructor
  · intro h
    rw [← forall_mem_dropWhile_iff pyIsSpace]
    intro c hc
    exact h c (by simpa using hc)
  · intro h c hc
    exact ((forall_mem_dropWhile_iff pyIsSpace l).mpr h) c (by simpa using hc)

/-- Helper: the Python-style strip of a character list is non-empty exactly
when some character of the list is not Python whitespace. -/
theorem pyStrip_length_pos_iff (l : List Char) :
    0 < (pyStrip l).length ↔ ∃ c ∈ l, pyIsSpace c = false := by
  rw [List.length_pos, Ne, pyStrip_eq_nil_iff]
  simp [Bool.not_eq_true]

/-- Claim C7, counterexample: the one-character content consisting of a
single blank is non-empty and well under 5000 characters, so the claim says
a TEXT message with it is accepted; `validate_content` rejects it, because
the source additionally requires the content to be non-empty after
`strip()`. -/
theorem validate_content_blank_counterexample :
    (" " == "") = false ∧ " ".length = 1 ∧ " ".length ≤ 5000 ∧
    Message.validate_content " " MessageType.text = false := by
  decide

/-- Claim C7, amended: content validation accepts a TEXT message exactly
when the content contains at least one character outside the Python
`str.strip()` whitespace set (so it is in particular non-empty, and
non-empty after stripping whitespace) and is at most 5000 characters long;
every non-TEXT (system-type) message is accepted even with empty content. -/
theorem validate_content_iff (content : String) (mt : MessageType) :
    Message.validate_content content mt = true ↔
      (mt = MessageType.text →
        ((∃ c ∈ content.data, pyIsSpace c = false) ∧
          content.length ≤ 5000)) := by
  cases mt
  case text =>
    simp only [Message.validate_content, Bool.and_eq_true, Bool.not_eq_true',
      beq_eq_false_iff_ne, ne_eq, decide_eq_true_eq, gt_iff_lt, forall_const]
    rw [pyStrip_length_pos_iff]
    constructor
    · rintro ⟨⟨_hne, hex⟩, hlen⟩
      exact ⟨hex, hlen⟩
    · rintro ⟨hex, hlen⟩
      refine ⟨⟨?_, hex⟩, hlen⟩
      obtain ⟨c, hc, _⟩ := hex
      intro he
      subst he
      simp at hc
  all_goals simp [Message.validate_content]

/-- Claim C7 (amended), witness: evaluating the theorem on the concrete
content strings used by the counterexample discussion. -/
theorem validate_content_iff_witness :
    Message.validate_content "hi" MessageType.text = true := by
  exact (validate_content_iff "hi" MessageType.text).mpr
    (fun _ => ⟨⟨'h', by decide, by decide⟩, by decide⟩)

/-- Claim C4: within a channel, a target membership can be managed by an
actor membership exactly when the actor is an admin and the target is not an
admin or is the actor themself, or the actor is a moderator and the target
is a plain member; and whenever management is denied, `kick_user` with those
two memberships in place rejects the kick and leaves the database
unchanged. -/
theorem can_be_managed_by_spec (target actor : ChannelMembership) :
    (target.can_be_managed_by actor = true ↔
      ((actor.role = MembershipRole.admin ∧
         (target.role ≠ MembershipRole.admin ∨
           actor.user_id = target.user_id)) ∨
       (actor.role = MembershipRole.moderator ∧
         target.role = MembershipRole.member))) ∧
    (∀ (db : DB) (moderator : User) (cid uid : String),
      ChannelMembership.find db.memberships cid moderator.id = some actor →
      ChannelMembership.find db.memberships cid uid = some target →
      target.can_be_managed_by actor = false →
      (∃ e, (ChannelService.kick_user db moderator cid uid).1 =
        Except.error e) ∧
      (ChannelService.kick_user db moderator cid uid).2 = db) := by
  constructor
  · cases hra : actor.role <;> cases hrt : target.role <;>
      simp [ChannelMembership.can_be_managed_by, ChannelMembership.is_admin,
        ChannelMembership.is_moderator, ChannelMembership.is_member, hra, hrt]
  · intro db moderator cid uid h1 h2 h3
    unfold ChannelService.kick_user
    cases hc : Channel.get db.channels cid
    case none => simp
    case some c =>
      rw [h1]
      simp only []
      cases hm : actor.can_manage_members
      case false => simp [hm]
      case true =>
        rw [h2]
        simp [hm, h3]

/-- Claim C4, witness: a moderator membership cannot manage an admin
membership, and the corresponding kick in the concrete database `dbC4` is
rejected without changing the database. -/
theorem can_be_managed_by_spec_witness :
    targetC4.can_be_managed_by actorC4 = false ∧
    (∃ e, (ChannelService.kick_user dbC4 modUserC4 "c4" "adm1").1 =
      Except.error e) ∧
    (ChannelService.kick_user dbC4 modUserC4 "c4" "adm1").2 = dbC4 := by
  refine ⟨by decide, ?_⟩
  exact (can_be_managed_by_spec targetC4 actorC4).2 dbC4 modUserC4 "c4" "adm1"
    (by decide) (by decide) (by decide)

/-- Claim C1, counterexample: in `dbC1` the channel c1 is public and not
archived and the user u1 has no membership row, so by the claim
`send_channel_message` should succeed for them; instead it fails with the
membership error (the source requires a membership row unconditionally)
and persists nothing. -/
theorem send_channel_message_nonmember_counterexample :
    chanC1.is_private = false ∧ chanC1.is_archived = false ∧
    Channel.get dbC1.channels "c1" = some chanC1 ∧
    ChannelMembership.find dbC1.memberships "c1" userC1.id = none ∧
    Message.validate_content "hello" MessageType.text = true ∧
    (MessagingService.send_channel_message dbC1 userC1 "c1" "hello"
        MessageType.text "m1" 10).1 =
      Except.error "User is not a member of this channel" ∧
    (MessagingService.send_channel_message dbC1 userC1 "c1" "hello"
        MessageType.text "m1" 10).2.messages = dbC1.messages := by
  refine ⟨rfl, rfl, rfl, rfl, by decide, rfl, rfl⟩

/-- Claim C1, amended: a channel send succeeds exactly when the channel
exists and is not archived, the sender has a membership row in the channel,
that membership is not muted, and the content validates; whether the channel
is public or private plays no role, and in particular a user with no
membership row cannot send even to a public non-archived channel. -/
theorem send_channel_message_ok_iff (db : DB) (sender : User)
    (cid content : String) (mt : MessageType) (nid : String) (now : Int) :
    (∃ msg, (MessagingService.send_channel_message db sender cid content mt
        nid now).1 = Except.ok msg) ↔
      ((∃ c, Channel.get db.channels cid = some c ∧ c.is_archived = false) ∧
       (∃ m, ChannelMembership.find db.memberships cid sender.id = some m ∧
         m.is_muted = false) ∧
       Message.validate_content content mt = true) := by
  unfold MessagingService.send_channel_message
  cases hc : Channel.get db.channels cid
  case none => simp
  case some c =>
    cases ha : c.is_archived
    case true => simp [ha]
    case false =>
      cases hm : ChannelMembership.find db.memberships cid sender.id
      case none => simp [ha, hm]
      case some m =>
        cases hmu : m.is_muted
        case true =>
          simp [ha, hmu, ChannelMembership.can_send_messages]
        case false =>
          cases hv : Message.validate_content content mt
          case false => simp [ha, hmu, hv, ChannelMembership.can_send_messages]
          case true => simp [ha, hmu, hv, ChannelMembership.can_send_messages]

/-- Claim C3: token validation returns invalid (`none`) exactly when no
session with the token identifier exists, or the found session is revoked,
or it is expired; and whenever it returns a session, that session is the
stored one with only `last_active` refreshed to the current instant — every
other field (id, user, token identifier, interface, creation and expiry
times, revocation flag) is unchanged. -/
theorem validate_token_spec (db : DB) (jti : String) (now : Int) :
    ((AuthService.validate_token db jti now).1 = none ↔
      (Session.find_by_token_jti db.sessions jti = none ∨
       ∃ s, Session.find_by_token_jti db.sessions jti = some s ∧
         (s.is_revoked = true ∨ s.is_expired now = true))) ∧
    (∀ s2, (AuthService.validate_token db jti now).1 = some s2 →
      ∃ s, Session.find_by_token_jti db.sessions jti = some s ∧
        s2 = s.update_activity now ∧ s2.last_active = now ∧
        s2.id = s.id ∧ s2.user_id = s.user_id ∧ s2.token_jti = s.token_jti ∧
        s2.interface_type = s.interface_type ∧ s2.created_at = s.created_at ∧
        s2.expires_at = s.expires_at ∧ s2.is_revoked = s.is_revoked) := by
  unfold AuthService.validate_token
  cases hf : Session.find_by_token_jti db.sessions jti
  case none => simp
  case some s =>
    cases hrev : s.is_revoked <;> cases hexp : s.is_expired now <;>
      constructor <;>
      simp [Session.is_active, Session.update_activity, hrev, hexp, hf]

/-- Claim C3, witness: validating the token identifier j1 in `dbC3` at time
50 succeeds and returns the stored session with only `last_active` moved to
50. -/
theorem validate_token_spec_witness :
    ∃ s, Session.find_by_token_jti dbC3.sessions "j1" = some s ∧
      sessC3.update_activity 50 = s.update_activity 50 ∧
      (sessC3.update_activity 50).last_active = 50 ∧
      (sessC3.update_activity 50).id = s.id ∧
      (sessC3.update_activity 50).user_id = s.user_id ∧
      (sessC3.update_activity 50).token_jti = s.token_jti ∧
      (sessC3.update_activity 50).interface_type = s.interface_type ∧
      (sessC3.update_activity 50).created_at = s.created_at ∧
      (sessC3.update_activity 50).expires_at = s.expires_at ∧
      (sessC3.update_activity 50).is_revoked = s.is_revoked := by
  exact (validate_token_spec dbC3 "j1" 50).2 (sessC3.update_activity 50) rfl

/-- Claim C9: whenever the user account resolved from the supplied
username-or-email is inactive, authentication returns no user — even when
the password check (modelled by `verify`, here arbitrary, so in particular a
correct password) would succeed — and the full login flow returns no result
and leaves the session table untouched, so no session is created. -/
theorem authenticate_user_inactive (verify : String → String → Bool) (db : DB)
    (username password : String) (now : Int) (itype : InterfaceType)
    (hours : Int) (sid jti : String) (u : User)
    (hres : AuthService.resolve_user db.users username = some u)
    (hina : u.is_active = false) :
    (AuthService.authenticate_user verify db username password now).1 = none ∧
    (AuthService.login verify db username password itype hours sid jti
      now).1 = none ∧
    (AuthService.login verify db username password itype hours sid jti
      now).2.sessions = db.sessions := by
  simp [AuthService.login, AuthService.authenticate_user, hres, hina]

/-- Claim C9, witness: logging in as the inactive user `userC9` with a
password check that always succeeds still yields no user, no login result,
and no new session in `dbC9`. -/
theorem authenticate_user_inactive_witness :
    (AuthService.authenticate_user (fun _ _ => true) dbC9 "dave" "pw"
      0).1 = none ∧
    (AuthService.login (fun _ _ => true) dbC9 "dave" "pw" InterfaceType.web
      24 "s9" "j9" 0).1 = none ∧
    (AuthService.login (fun _ _ => true) dbC9 "dave" "pw" InterfaceType.web
      24 "s9" "j9" 0).2.sessions = dbC9.sessions := by
  exact authenticate_user_inactive (fun _ _ => true) dbC9 "dave" "pw" 0
    InterfaceType.web 24 "s9" "j9" userC9 rfl rfl

/-- Claim C10: when the leaving user is an admin membership, the channel has
exactly one admin membership, and the channel has more than one membership
row, `leave_channel` fails with the only-admin error and deletes nothing;
and, in general, a successful leave implies the leaver was not the sole
admin of a channel with more than one member. -/
theorem leave_channel_sole_admin (db : DB) (user : User) (cid : String)
    (c : Channel) (m : ChannelMembership)
    (hc : Channel.get db.channels cid = some c)
    (hm : ChannelMembership.find db.memberships cid user.id = some m)
    (hadmin : m.is_admin = true)
    (hcount : (db.memberships.filter (fun x =>
      x.channel_id == cid && x.role == MembershipRole.admin)).length = 1)
    (hmem : (db.memberships.filter (fun x =>
      x.channel_id == cid)).length > 1) :
    ((ChannelService.leave_channel db user cid).1 = Except.error
      "Cannot leave: you are the only admin. Transfer ownership first." ∧
    (ChannelService.leave_channel db user cid).2 = db) ∧
    (∀ (db2 : DB) (user2 : User) (cid2 : String),
      (ChannelService.leave_channel db2 user2 cid2).1 = Except.ok () →
      ¬∃ m2, ChannelMembership.find db2.memberships cid2 user2.id = some m2 ∧
        m2.is_admin = true ∧
        (db2.memberships.filter (fun x =>
          x.channel_id == cid2 && x.role == MembershipRole.admin)).length
          = 1 ∧
        (db2.memberships.filter (fun x =>
          x.channel_id == cid2)).length > 1) := by
  constructor
  · unfold ChannelService.leave_channel
    rw [hc, hm]
    simp [hadmin, hcount, hmem]
  · intro db2 user2 cid2 hok
    rintro ⟨m2, hfind, hadm, hcnt, hmemn⟩
    unfold ChannelService.leave_channel at hok
    cases hc2 : Channel.get db2.channels cid2 <;> rw [hc2] at hok
    case none => simp at hok
    case some c2 =>
      rw [hfind] at hok
      simp [hadm, hcnt, hmemn] at hok

/-- Claim C10, witness: in `dbC10` the user `adminUserC10` is the only admin
of channel c10, which has two members; leaving fails and deletes nothing. -/
theorem leave_channel_sole_admin_witness :
    (ChannelService.leave_channel dbC10 adminUserC10 "c10").1 = Except.error
      "Cannot leave: you are the only admin. Transfer ownership first." ∧
    (ChannelService.leave_channel dbC10 adminUserC10 "c10").2 = dbC10 := by
  exact (leave_channel_sole_admin dbC10 adminUserC10 "c10"
    { id := "c10", name := "chan10", is_private := false,
      is_archived := false, max_members := 50 }
    adminMemC10 rfl rfl (by decide) (by decide) (by decide)).1

/-- Claim C8: for distinct user ids, `find_or_create` is symmetric in its
two arguments (both orders compute the identical result on the identical
table); the constructor stores the smaller id as participant1 and the larger
as participant2; and a second lookup in the opposite order on the resulting
table finds the very same conversation and adds nothing, so at most one
conversation exists per unordered pair. -/
theorem find_or_create_unordered_pair (convs : List DirectConversation)
    (a b nid : String) (now : Int) (hne : a ≠ b) :
    (DirectConversation.find_or_create convs a b nid now =
      DirectConversation.find_or_create convs b a nid now) ∧
    ((DirectConversation.init nid a b now).participant1_id <
        (DirectConversation.init nid a b now).participant2_id ∧
      (((DirectConversation.init nid a b now).participant1_id = a ∧
        (DirectConversation.init nid a b now).participant2_id = b) ∨
       ((DirectConversation.init nid a b now).participant1_id = b ∧
        (DirectConversation.init nid a b now).participant2_id = a))) ∧
    (∀ (nid2 : String) (now2 : Int),
      DirectConversation.find_or_create
        (DirectConversation.find_or_create convs a b nid now).2 b a
          nid2 now2 =
        DirectConversation.find_or_create convs a b nid now) := by
  rcases lt_trichotomy a b with hab | hab | hab
  · have hgt : ¬ a > b := hab.asymm
    have hgt2 : b > a := hab
    have hinit : DirectConversation.init nid a b now =
        { id := nid, participant1_id := a, participant2_id := b,
          created_at := now, last_message_at := none } := by
      unfold DirectConversation.init
      rw [if_pos hab]
    refine ⟨?_, ?_, ?_⟩
    · simp only [DirectConversation.find_or_create, if_neg hgt, if_pos hgt2]
    · rw [hinit]
      exact ⟨hab, Or.inl ⟨rfl, rfl⟩⟩
    · intro nid2 now2
      simp only [DirectConversation.find_or_create, if_neg hgt, if_pos hgt2]
      cases hfind : convs.find? (fun c =>
          c.participant1_id == a && c.participant2_id == b)
      case some c => simp [hfind]
      case none =>
        simp only [hfind, hinit, List.find?_append, Option.none_or]
        simp [List.find?]
  · exact absurd hab hne

  · have hgt : a > b := hab
    have hgt2 : ¬ b > a := hab.asymm
    have hnlt : ¬ a < b := hab.asymm
    have hinit : DirectConversation.init nid a b now =
        { id := nid, participant1_id := b, participant2_id := a,
          created_at := now, last_message_at := none } := by
      unfold DirectConversation.init
      rw [if_neg hnlt]
    have hinitn : DirectConversation.init nid b a now =
        { id := nid, participant1_id := b, participant2_id := a,
          created_at := now, last_message_at := none } := by
      unfold DirectConversation.init
      rw [if_pos hab]
    refine ⟨?_, ?_, ?_⟩
    · simp only [DirectConversation.find_or_create, if_pos hgt, if_neg hgt2]
    · rw [hinit]
      exact ⟨hab, Or.inr ⟨rfl, rfl⟩⟩
    · intro nid2 now2
      simp only [DirectConversation.find_or_create, if_pos hgt, if_neg hgt2]
      cases hfind : convs.find? (fun c =>
          c.participant1_id == b && c.participant2_id == a)
      case some c => simp [hfind]
      case none =>
        simp only [hfind, hinitn, List.find?_append, Option.none_or]
        simp [List.find?]

/-- Claim C8, witness: on the empty table with the distinct ids a and b,
both argument orders of `find_or_create` agree, and re-resolving the pair in
the opposite order on the resulting table returns the same conversation and
adds nothing. -/
theorem find_or_create_unordered_pair_witness :
    (DirectConversation.find_or_create [] "a" "b" "c1" 0 =
      DirectConversation.find_or_create [] "b" "a" "c1" 0) ∧
    (DirectConversation.find_or_create
        (DirectConversation.find_or_create [] "a" "b" "c1" 0).2 "b" "a"
          "c2" 7 =
      DirectConversation.find_or_create [] "a" "b" "c1" 0) := by
  obtain ⟨h1, _h2, h3⟩ :=
    find_or_create_unordered_pair [] "a" "b" "c1" 0 (by decide)
  exact ⟨h1, h3 "c2" 7⟩

/-- Claim C5, counterexample: in `dbC5` the channel c5 holds the non-deleted
message `msgC5` with `created_at = 5 > 3`, so by the claim the computation
with supplied watermark 3 should return it; instead the source treats the
timestamp as a pagination bound (`created_at < before_timestamp`) and
returns the empty list. -/
theorem get_channel_messages_watermark_counterexample :
    msgC5 ∈ dbC5.messages ∧ msgC5.channel_id = some "c5" ∧
    msgC5.is_deleted = false ∧ msgC5.created_at > 3 ∧
    (MessagingService.get_channel_messages dbC5 userC5 "c5" 50 (some 3)).1 =
      Except.ok [] := by
  refine ⟨by decide, rfl, rfl, by decide, ?_⟩
  simp [MessagingService.get_channel_messages, ChannelMembership.find,
    sortByCreatedDesc, dbC5, memC5, msgC5, userC5]

/-- Helper: the oldest-first window `((sortByCreatedDesc q).take
limit).reverse` computed by the message readers holds exactly
`min limit q.length` elements, is sorted ascending by `created_at`, draws
its elements from `q`, equals `q` as a set when `q` fits inside `limit`,
omits only elements of `q` that are no newer than everything it keeps (so
it is a most-recent window), and before the reversal the taken prefix is
sorted descending. -/
theorem sortByCreatedDesc_take_reverse_spec (q : List Message) (limit : Nat) :
    (((sortByCreatedDesc q).take limit).reverse.length =
      min limit q.length) ∧
    List.Pairwise (fun x y => x.created_at ≤ y.created_at)
      ((sortByCreatedDesc q).take limit).reverse ∧
    (∀ m ∈ ((sortByCreatedDesc q).take limit).reverse, m ∈ q) ∧
    (q.length ≤ limit →
      ∀ m, m ∈ ((sortByCreatedDesc q).take limit).reverse ↔ m ∈ q) ∧
    (∀ m ∈ q, m ∉ ((sortByCreatedDesc q).take limit).reverse →
      ∀ m2 ∈ ((sortByCreatedDesc q).take limit).reverse,
        m.created_at ≤ m2.created_at) ∧
    List.Pairwise (fun x y => y.created_at ≤ x.created_at)
      ((sortByCreatedDesc q).take limit) := by
  have htrans : ∀ (a b c : Message),
      (fun x y => decide (y.created_at ≤ x.created_at)) a b = true →
      (fun x y => decide (y.created_at ≤ x.created_at)) b c = true →
      (fun x y => decide (y.created_at ≤ x.created_at)) a c = true := by
    intro a b c hab hbc
    simp only [decide_eq_true_eq] at hab hbc ⊢
    exact le_trans hbc hab
  have htotal : ∀ (a b : Message),
      ((fun x y => decide (y.created_at ≤ x.created_at)) a b ||
       (fun x y => decide (y.created_at ≤ x.created_at)) b a) = true := by
    intro a b
    simp only [Bool.or_eq_true, decide_eq_true_eq]
    exact le_total b.created_at a.created_at
  have hsorted : List.Pairwise
      (fun x y => decide (y.created_at ≤ x.created_at) = true)
      (sortByCreatedDesc q) := by
    unfold sortByCreatedDesc
    exact List.sorted_mergeSort htrans htotal q
  have hwindow : List.Pairwise
      (fun x y => decide (y.created_at ≤ x.created_at) = true)
      ((sortByCreatedDesc q).take limit) :=
    List.Pairwise.sublist (List.take_sublist limit _) hsorted
  refine ⟨?_, ?_, ?_, ?_, ?_, ?_⟩
  · rw [List.length_reverse, List.length_take]
    have hq : (sortByCreatedDesc q).length = q.length := by
      unfold sortByCreatedDesc
      simp
    rw [hq]
  · rw [List.pairwise_reverse]
    exact hwindow.imp (fun h => decide_eq_true_eq.mp h)
  · intro m hm
    have h1 := List.mem_reverse.mp hm
    have h2 := List.mem_of_mem_take h1
    unfold sortByCreatedDesc at h2
    exact List.mem_mergeSort.mp h2
  · intro hlen m
    have hlens : (sortByCreatedDesc q).length = q.length := by
      unfold sortByCreatedDesc
      simp
    rw [List.take_of_length_le (le_trans (le_of_eq hlens) hlen),
      List.mem_reverse]
    unfold sortByCreatedDesc
    exact List.mem_mergeSort
  · intro m hmq hnot m2 hm2
    have hmsort : m ∈ sortByCreatedDesc q := by
      unfold sortByCreatedDesc
      exact List.mem_mergeSort.mpr hmq
    rw [← List.take_append_drop limit (sortByCreatedDesc q)] at hmsort
    rcases List.mem_append.mp hmsort with htk | hdp
    · exact absurd (List.mem_reverse.mpr htk) hnot
    · have hcross := (List.pairwise_append.mp
        (by rw [List.take_append_drop limit (sortByCreatedDesc q)]
            exact hsorted)).2.2
      exact decide_eq_true_eq.mp (hcross m2 (List.mem_reverse.mp hm2) m hdp)
  · exact hwindow.imp (fun h => decide_eq_true_eq.mp h)

/-- Claim C5, amended: `get_channel_messages` fails with the membership
error exactly when the requesting user has no membership row, reads without
changing the database, and on success returns the most recent up-to-`limit`
window of the qualifying messages — the non-deleted messages of the channel,
restricted to `created_at` strictly BELOW the supplied timestamp (a
pagination bound, not a catch-up watermark): the result holds exactly
`min limit qualifying` messages, is ordered oldest-first, contains only
qualifying messages, omits no qualifying message newer than one it keeps,
and is exactly the qualifying set when that set fits in `limit`; when no
timestamp is supplied the result is the oldest-first reversal of the
newest-first window that the cited `Channel.get_recent_messages` computes
for the same limit (the defaults, 50 on the service and 20 on the model,
are the embedded default arguments mirroring the source). -/
theorem get_channel_messages_spec (db : DB) (user : User) (cid : String)
    (limit : Nat) (bt : Option Int) :
    ((MessagingService.get_channel_messages db user cid limit bt).1 =
        Except.error "User is not a member of this channel" ↔
      ChannelMembership.find db.memberships cid user.id = none) ∧
    ((MessagingService.get_channel_messages db user cid limit bt).2 = db) ∧
    (∀ msgs, (MessagingService.get_channel_messages db user cid limit
        bt).1 = Except.ok msgs →
      msgs.length = min limit (channelQualifying db.messages cid
        bt).length ∧
      List.Pairwise (fun x y => x.created_at ≤ y.created_at) msgs ∧
      (∀ m ∈ msgs, m ∈ db.messages ∧ m.channel_id = some cid ∧
        m.is_deleted = false ∧ ∀ t, bt = some t → m.created_at < t) ∧
      (∀ m ∈ channelQualifying db.messages cid bt, m ∉ msgs →
        ∀ m2 ∈ msgs, m.created_at ≤ m2.created_at) ∧
      ((channelQualifying db.messages cid bt).length ≤ limit →
        ∀ m, m ∈ msgs ↔ m ∈ channelQualifying db.messages cid bt) ∧
      (∀ c : Channel, cid = c.id → bt = none →
        msgs = (Channel.get_recent_messages c db.messages limit).reverse ∧
        List.Pairwise (fun x y => y.created_at ≤ x.created_at)
          (Channel.get_recent_messages c db.messages limit))) := by
  unfold MessagingService.get_channel_messages
  cases hf : ChannelMembership.find db.memberships cid user.id
  case none => simp
  case some mem =>
    cases bt
    case none =>
      refine ⟨by simp, rfl, ?_⟩
      intro msgs hok
      rw [Except.ok.injEq] at hok
      subst hok
      obtain ⟨hlen, hpair, hmemq, hcompl, hrecent, hdesc⟩ :=
        sortByCreatedDesc_take_reverse_spec
          (db.messages.filter (fun m =>
            m.channel_id == some cid && m.is_deleted == false)) limit
      refine ⟨hlen, hpair, ?_, ?_, ?_, ?_⟩
      · intro m hm
        obtain ⟨hmem, hp⟩ := List.mem_filter.mp (hmemq m hm)
        simp only [Bool.and_eq_true, beq_iff_eq] at hp
        exact ⟨hmem, hp.1, hp.2, by simp⟩
      · exact hrecent
      · intro hlenq m
        exact hcompl hlenq m
      · intro c hcid hbt
        subst hcid
        exact ⟨rfl, hdesc⟩
    case some t =>
      refine ⟨by simp, rfl, ?_⟩
      intro msgs hok
      rw [Except.ok.injEq] at hok
      subst hok
      obtain ⟨hlen, hpair, hmemq, hcompl, hrecent, _hdesc⟩ :=
        sortByCreatedDesc_take_reverse_spec
          ((db.messages.filter (fun m =>
            m.channel_id == some cid && m.is_deleted == false)).filter
            (fun m => m.created_at < t)) limit
      refine ⟨hlen, hpair, ?_, ?_, ?_, ?_⟩
      · intro m hm
        obtain ⟨hmq1, hlt⟩ := List.mem_filter.mp (hmemq m hm)
        obtain ⟨hmem, hp⟩ := List.mem_filter.mp hmq1
        simp only [Bool.and_eq_true, beq_iff_eq] at hp
        refine ⟨hmem, hp.1, hp.2, ?_⟩
        intro t2 ht2
        cases ht2
        exact decide_eq_true_eq.mp hlt
      · exact hrecent
      · intro hlenq m
        exact hcompl hlenq m
      · intro c _hcid hbt
        simp at hbt

/-- Claim C5 (amended), witness: reading channel c5 in `dbC5` with no
timestamp succeeds with the singleton window holding `msgC5`, whose length
is exactly the minimum of the limit and the one qualifying message, sorted
oldest-first, and consisting of non-deleted messages of the channel. -/
theorem get_channel_messages_spec_witness :
    [msgC5].length = min 50 (channelQualifying dbC5.messages "c5"
      none).length ∧
    List.Pairwise (fun x y => x.created_at ≤ y.created_at) [msgC5] ∧
    (∀ m ∈ [msgC5], m ∈ dbC5.messages ∧ m.channel_id = some "c5" ∧
      m.is_deleted = false ∧
      ∀ t, (none : Option Int) = some t → m.created_at < t) := by
  have hok : (MessagingService.get_channel_messages dbC5 userC5 "c5" 50
      none).1 = Except.ok [msgC5] := by
    simp [MessagingService.get_channel_messages, ChannelMembership.find,
      dbC5, memC5, userC5, msgC5, sortByCreatedDesc]
  have h := (get_channel_messages_spec dbC5 userC5 "c5" 50 none).2.2
    [msgC5] hok
  exact ⟨h.1, h.2.1, h.2.2.1⟩
